import Mathlib

/-
Verification development for the chatapp real-time client
(frontend/src/services/socketService.js and
frontend/src/components/Chat/ChatWindow.js).

The JavaScript service is shallowly embedded: the mutable `SocketService`
instance becomes an explicit state record threaded through pure functions,
the `Map<string, Set<callback>>` listener registry becomes an association
list of insertion-ordered duplicate-free handler lists (mirroring the
insertion-order semantics of JS `Map` and `Set`), and callbacks become
opaque handler identifiers whose behaviour is supplied by an environment
(`sem` for the effect a callback has on the registry, `thr` for whether it
throws on a given payload).  Outbound `socket.emit(...)` calls are recorded
in an append-only wire log so that "nothing was sent" is expressible.
-/

namespace ChatApp

/-- Embedding of JS `String.prototype.trim`: removes whitespace characters
from both ends of the string.  Written by structural recursion on the
character list so that concrete instances reduce in the kernel. -/
def jsTrim (s : String) : String :=
  String.mk
    (((s.data.dropWhile Char.isWhitespace).reverse.dropWhile
        Char.isWhitespace).reverse)

/-- Handler identifier.  JS callbacks are compared by reference identity in
`Set.add` / `Set.delete`; opaque numeric identifiers model that identity. -/
abbrev Handler := Nat

/-- The listener registry `this.listeners : Map<string, Set<callback>>`.
Each entry keeps its handler list duplicate-free in insertion order,
matching JS `Set` semantics. -/
abbrev Listeners := List (String × List Handler)

/-- Lookup `this.listeners.get(event)`; `none` models `has(event) = false`. -/
def lookupEvent : Listeners → String → Option (List Handler)
  | [], _ => none
  | (e', s) :: rest, e => if e' = e then some s else lookupEvent rest e

/-- JS `Set.prototype.add`: appends the element unless already present. -/
def addHandler (s : List Handler) (h : Handler) : List Handler :=
  if h ∈ s then s else s ++ [h]

/-- Embedding of `SocketService.on(event, callback)`:
if the map has no entry for the event a fresh empty set is installed
(at the end of the map, as JS `Map.set` does for a new key), then the
callback is added to the event's set. -/
def listenersOn : Listeners → String → Handler → Listeners
  | [], e, h => [(e, [h])]
  | (e', s) :: rest, e, h =>
    if e' = e then (e', addHandler s h) :: rest
    else (e', s) :: listenersOn rest e h

/-- Embedding of `SocketService.off(event, callback)`:
if the map has an entry for the event, the callback is deleted from its
set; the (possibly now empty) entry itself is kept, as in the source. -/
def listenersOff : Listeners → String → Handler → Listeners
  | [], _, _ => []
  | (e', s) :: rest, e, h =>
    if e' = e then (e', s.erase h) :: rest
    else (e', s) :: listenersOff rest e h

/-- Iteration core of `SocketService.emit(event, data)`:
`this.listeners.get(event).forEach(callback => { try { callback(data) }
catch ... })`.  JS `Set.forEach` visits the elements present when their
turn comes: an element deleted before its turn is skipped.  This is
modelled by walking the snapshot taken at dispatch start and checking, at
each turn, that the handler is still registered for the event.  (Handlers
in this codebase never add registrations for the event being dispatched
mid-dispatch, so snapshot order is exact.)  A handler's registry effect is
`sem`, applied whether or not it throws (JS mutations made before a throw
persist); `thr` says whether the callback throws, in which case the
exception is caught at the dispatch boundary and only recorded.  Returns
the final registry, the invoked handlers in order, and the handlers whose
exception was caught. -/
def runHandlers {α : Type} (sem : Handler → α → Listeners → Listeners)
    (thr : Handler → α → Bool) (event : String) (data : α) :
    List Handler → Listeners → Listeners × List Handler × List Handler
  | [], ls => (ls, [], [])
  | h :: rest, ls =>
    match lookupEvent ls event with
    | none => runHandlers sem thr event data rest ls
    | some cur =>
      if h ∈ cur then
        let ls' := sem h data ls
        let r := runHandlers sem thr event data rest ls'
        (r.1, h :: r.2.1, if thr h data then h :: r.2.2 else r.2.2)
      else runHandlers sem thr event data rest ls

/-- Embedding of `SocketService.emit(event, data)`: if the map has an entry
for the event, its handler set is iterated as above; the function is total
and returns normally whatever `thr` says, modelling that a subscriber
exception never propagates to the dispatcher's caller. -/
def listenersEmit {α : Type} (sem : Handler → α → Listeners → Listeners)
    (thr : Handler → α → Bool) (ls : Listeners) (event : String) (data : α) :
    Listeners × List Handler × List Handler :=
  match lookupEvent ls event with
  | none => (ls, [], [])
  | some snapshot => runHandlers sem thr event data snapshot ls

/-- Commands emitted over the transport by `this.socket.emit(name, payload)`,
named after the wire event vocabulary of the source. -/
inductive WireCmd
  | authenticate (token : String)
  | join_chat (chatId : Nat)
  | leave_chat (chatId : Nat)
  | send_message (chatId : Nat) (content : String)
  | typing_start (chatId : Nat)
  | typing_stop (chatId : Nat)
  | mark_messages_read (chatId : Nat)
  deriving DecidableEq, Repr

/-- State of the `SocketService` instance.  `socket` holds the transport
identifier of the current socket (`null` becomes `none`); `openTransports`
is a history variable listing transports opened by `io(...)` and not yet
closed by `socket.disconnect()`; `nextId` supplies fresh transport
identifiers; `pendingToken` is the token captured by the `connect` closure
for the `authenticate` emission; `authenticated` is a history variable
recording whether the current connect attempt's promise was resolved by an
`authenticated` event; `wire` logs every command emitted to the server,
oldest first. -/
structure SocketService where
  socket : Option Nat
  isConnected : Bool
  listeners : Listeners
  openTransports : List Nat
  nextId : Nat
  pendingToken : String
  authenticated : Bool
  wire : List WireCmd
  deriving DecidableEq, Repr

/-- The constructor: `this.socket = null; this.isConnected = false;
this.listeners = new Map()`. -/
def SocketService.init : SocketService :=
  { socket := none, isConnected := false, listeners := [],
    openTransports := [], nextId := 0, pendingToken := "",
    authenticated := false, wire := [] }

/-- Embedding of `disconnect()`: if a socket is present it is closed
(`socket.disconnect()`), the reference is nulled, `isConnected` is reset
and the registry is cleared; otherwise nothing at all happens. -/
def disconnect (s : SocketService) : SocketService :=
  match s.socket with
  | some t =>
    { s with socket := none, isConnected := false, listeners := [],
             openTransports := s.openTransports.erase t,
             authenticated := false }
  | none => s

/-- Embedding of the synchronous part of `connect(token)`: any existing
socket is first torn down via `disconnect()`, then `io(WS_URL, ...)` opens
a fresh transport which becomes the current socket; the token is captured
for the later `authenticate` emission.  `isConnected` stays false until
the transport's `connect` event fires. -/
def connect (token : String) (s : SocketService) : SocketService :=
  let s1 := if s.socket.isSome then disconnect s else s
  { s1 with socket := some s1.nextId,
            openTransports := s1.nextId :: s1.openTransports,
            nextId := s1.nextId + 1,
            pendingToken := token,
            authenticated := false }

/-- Outcome of the promise returned by `connect`. -/
inductive ConnectOutcome
  | resolved
  | rejected (reason : String)
  deriving DecidableEq, Repr

/-- The socket's `connect` handler: marks the service connected and emits
`authenticate` with the captured token. -/
def socketOnConnect (s : SocketService) : SocketService :=
  match s.socket with
  | some _ =>
    { s with isConnected := true,
             wire := s.wire ++ [WireCmd.authenticate s.pendingToken] }
  | none => s

/-- The socket's `authenticated` handler: resolves the connect promise. -/
def socketOnAuthenticated (s : SocketService) :
    SocketService × Option ConnectOutcome :=
  match s.socket with
  | some _ => ({ s with authenticated := true }, some ConnectOutcome.resolved)
  | none => (s, none)

/-- The socket's `auth_error` handler: calls `this.disconnect()` and
rejects the connect promise with the server-supplied reason
(`new Error(error.message)`). -/
def socketOnAuthError (msg : String) (s : SocketService) :
    SocketService × Option ConnectOutcome :=
  match s.socket with
  | some _ => (disconnect s, some (ConnectOutcome.rejected msg))
  | none => (s, none)

/-- The socket's `connect_error` handler: clears `isConnected` and rejects
the connect promise. -/
def socketOnConnectError (msg : String) (s : SocketService) :
    SocketService × Option ConnectOutcome :=
  match s.socket with
  | some _ => ({ s with isConnected := false },
               some (ConnectOutcome.rejected msg))
  | none => (s, none)

/-- The socket's `disconnect` handler: clears `isConnected`. -/
def socketOnDisconnect (s : SocketService) : SocketService :=
  match s.socket with
  | some _ => { s with isConnected := false }
  | none => s

/-- Delivery of a server push.  Each default listener installed by
`setupDefaultListeners` on the current socket forwards its event verbatim
to `this.emit(event, data)`; with no socket no push can be delivered.
Returns the new state and the list of registry handlers invoked. -/
def deliverPush {α : Type} (sem : Handler → α → Listeners → Listeners)
    (thr : Handler → α → Bool) (event : String) (data : α)
    (s : SocketService) : SocketService × List Handler :=
  match s.socket with
  | some _ =>
    let r := listenersEmit sem thr s.listeners event data
    ({ s with listeners := r.1 }, r.2.1)
  | none => (s, [])

/-- Embedding of `joinChat(chatId)`: guarded by
`this.socket && this.isConnected`, then `socket.emit('join_chat', ...)`. -/
def joinChat (chatId : Nat) (s : SocketService) : SocketService :=
  if s.socket.isSome && s.isConnected then
    { s with wire := s.wire ++ [WireCmd.join_chat chatId] }
  else s

/-- Embedding of `leaveChat(chatId)`. -/
def leaveChat (chatId : Nat) (s : SocketService) : SocketService :=
  if s.socket.isSome && s.isConnected then
    { s with wire := s.wire ++ [WireCmd.leave_chat chatId] }
  else s

/-- Embedding of `sendMessage(chatId, content)`: under the same guard, the
content is trimmed and a `send_message` command is emitted. -/
def sendMessage (chatId : Nat) (content : String) (s : SocketService) :
    SocketService :=
  if s.socket.isSome && s.isConnected then
    { s with wire := s.wire ++ [WireCmd.send_message chatId (jsTrim content)] }
  else s

/-- Embedding of `startTyping(chatId)`. -/
def startTyping (chatId : Nat) (s : SocketService) : SocketService :=
  if s.socket.isSome && s.isConnected then
    { s with wire := s.wire ++ [WireCmd.typing_start chatId] }
  else s

/-- Embedding of `stopTyping(chatId)`. -/
def stopTyping (chatId : Nat) (s : SocketService) : SocketService :=
  if s.socket.isSome && s.isConnected then
    { s with wire := s.wire ++ [WireCmd.typing_stop chatId] }
  else s

/-- Embedding of `markMessagesAsRead(chatId)`. -/
def markMessagesAsRead (chatId : Nat) (s : SocketService) : SocketService :=
  if s.socket.isSome && s.isConnected then
    { s with wire := s.wire ++ [WireCmd.mark_messages_read chatId] }
  else s

/-- Embedding of the registry method `SocketService.on`. -/
def SocketService.on (event : String) (h : Handler) (s : SocketService) :
    SocketService :=
  { s with listeners := listenersOn s.listeners event h }

/-- Embedding of the registry method `SocketService.off`. -/
def SocketService.off (event : String) (h : Handler) (s : SocketService) :
    SocketService :=
  { s with listeners := listenersOff s.listeners event h }

/-- Local state of the service: every field except the wire log.  Used to
state that an operation changes nothing locally even when it emits. -/
def SocketService.localState (s : SocketService) :
    Option Nat × Bool × Listeners × List Nat × Nat × String × Bool :=
  (s.socket, s.isConnected, s.listeners, s.openTransports, s.nextId,
   s.pendingToken, s.authenticated)

/-- A record of the `messages` list in `ChatWindow`.  Optimistic records
are built by `handleSendMessage` with `id` absent and `status` present
("sending", later possibly "failed"); server records arriving through
`new_message` carry a server id and no `status` field. -/
structure ChatMessage where
  id : Option Nat
  chat_id : Nat
  sender_id : Nat
  sender_username : String
  content : String
  timestamp : Nat
  status : Option String
  deriving DecidableEq, Repr

/-- State of the `ChatWindow` component relevant to the message lifecycle:
the selected chat, the current user, the `messages` state variable, and
the shared `socketService` instance. -/
structure ChatWindowState where
  chatId : Nat
  userId : Nat
  username : String
  messages : List ChatMessage
  svc : SocketService
  deriving DecidableEq, Repr

/-- The `messagePayload` object literal built by `handleSendMessage`. -/
def mkOutgoing (cw : ChatWindowState) (content : String) (now : Nat) :
    ChatMessage :=
  { id := none, chat_id := cw.chatId, sender_id := cw.userId,
    sender_username := cw.username, content := jsTrim content,
    timestamp := now, status := some "sending" }

/-- Embedding of `ChatWindow.handleSendMessage`.  Empty-after-trim content
returns before anything happens.  Otherwise a payload with status
"sending" is appended optimistically and the input cleared; then
`socketService.sendMessage(messagePayload)` is called.  That call passes
the whole payload object where the service expects `(chatId, content)`,
so the service's `content` parameter is `undefined`: when the
`socket && isConnected` guard passes, evaluating `content.trim()` raises a
TypeError before any `socket.emit`, the window's catch block runs, and the
optimistic record (matched by the source's reference equality
`msg === messagePayload`, modelled as structural equality on the freshly
built payload) is marked "failed"; when the guard fails the service
returns silently and the record keeps status "sending".  In both branches
the service state is unchanged and nothing reaches the wire. -/
def handleSendMessage (content : String) (now : Nat)
    (cw : ChatWindowState) : ChatWindowState :=
  if jsTrim content = "" then cw
  else
    let payload := mkOutgoing cw content now
    let msgs1 := cw.messages ++ [payload]
    if cw.svc.socket.isSome && cw.svc.isConnected then
      { cw with messages :=
          msgs1.map (fun m =>
            if m = payload then { m with status := some "failed" } else m) }
    else
      { cw with messages := msgs1 }

/-- Embedding of `ChatWindow.handleNewMessageUpdate`: a socket-delivered
message for the currently viewed chat is appended to the message list, and
if it was sent by someone else the chat is marked read via
`socketService.markMessagesAsRead`; messages for other chats are
ignored. -/
def handleNewMessageUpdate (message : ChatMessage)
    (cw : ChatWindowState) : ChatWindowState :=
  if message.chat_id = cw.chatId then
    { cw with
      messages := cw.messages ++ [message],
      svc := if message.sender_id ≠ cw.userId then
               markMessagesAsRead cw.chatId cw.svc
             else cw.svc }
  else cw

/-- Service state reached by calling `connect` on a fresh service and then
receiving the transport's `connect` event: a live socket, `isConnected`
true, the `authenticate` command emitted — and no `authenticated` event
delivered yet, so the session is connected but not authenticated. -/
def svcConnected : SocketService :=
  socketOnConnect (connect "tok" SocketService.init)

/-- Chat window on chat 1 opened by user 10 over the connected service. -/
def cwStart : ChatWindowState :=
  { chatId := 1, userId := 10, username := "alice", messages := [],
    svc := svcConnected }

/-- Server echo of the "hello" send: same room, sender and content,
carrying the server-assigned id 7. -/
def serverEcho : ChatMessage :=
  { id := some 7, chat_id := 1, sender_id := 10, sender_username := "alice",
    content := "hello", timestamp := 101, status := none }

/-- Window state after sending "hello" while connected and then receiving
the correlated `new_message` push. -/
def cwAfterEcho : ChatWindowState :=
  handleNewMessageUpdate serverEcho (handleSendMessage "hello" 100 cwStart)

/-- Service state with a handler registered while no socket exists: the
components subscribe on mount regardless of connection state. -/
def svcSubscribedOffline : SocketService :=
  SocketService.on "new_message" 0 SocketService.init

/-- Folding a list of `(event, handler)` registrations over the service,
modelling an arbitrary sequence of `on` calls. -/
def applyOns (regs : List (String × Handler)) (s : SocketService) :
    SocketService :=
  regs.foldl (fun s p => SocketService.on p.1 p.2 s) s

/-- Well-formedness of the registry: each event's handler collection is
duplicate-free, as guaranteed by JS `Set`. -/
def ListenersWF (ls : Listeners) : Prop := ∀ p ∈ ls, List.Nodup p.2

section RegistryLemmas

theorem lookupEvent_listenersOff (ls : Listeners) (e : String) (h : Handler)
    (e' : String) :
    lookupEvent (listenersOff ls e h) e' =
      if e' = e then (lookupEvent ls e').map (fun s => s.erase h)
      else lookupEvent ls e' := by
  induction ls with
  | nil => simp [listenersOff, lookupEvent]
  | cons p rest ih =>
    obtain ⟨pe, ps⟩ := p
    by_cases h1 : pe = e
    · subst h1
      by_cases h2 : pe = e'
      · subst h2
        simp [listenersOff, lookupEvent]
      · simp [listenersOff, lookupEvent, h2, ih, Ne.symm h2]
    · by_cases h2 : pe = e'
      · subst h2
        simp [listenersOff, lookupEvent, h1]
      · simp [listenersOff, lookupEvent, h1, h2, ih]

theorem lookupEvent_listenersOn (ls : Listeners) (e : String) (h : Handler)
    (e' : String) :
    lookupEvent (listenersOn ls e h) e' =
      if e' = e then some (addHandler ((lookupEvent ls e).getD []) h)
      else lookupEvent ls e' := by
  induction ls with
  | nil =>
    by_cases h2 : e' = e
    · subst h2; simp [listenersOn, lookupEvent, addHandler]
    · simp [listenersOn, lookupEvent, h2, Ne.symm h2]
  | cons p rest ih =>
    obtain ⟨pe, ps⟩ := p
    by_cases h1 : pe = e
    · subst h1
      by_cases h2 : pe = e'
      · subst h2
        simp [listenersOn, lookupEvent]
      · simp [listenersOn, lookupEvent, h2, Ne.symm h2]
    · by_cases h2 : pe = e'
      · subst h2
        simp [listenersOn, lookupEvent, h1]
      · simp [listenersOn, lookupEvent, h1, h2, ih]

theorem mem_addHandler_self (s : List Handler) (h : Handler) :
    h ∈ addHandler s h := by
  unfold addHandler
  split
  · assumption
  · simp

theorem addHandler_nodup (s : List Handler) (h : Handler)
    (hd : s.Nodup) : (addHandler s h).Nodup := by
  by_cases hm : h ∈ s
  · simpa [addHandler, hm] using hd
  · simp only [addHandler, hm, if_false]
    exact List.nodup_append.mpr
      ⟨hd, List.nodup_singleton h, by simp [List.disjoint_singleton, hm]⟩

theorem addHandler_idem (s : List Handler) (h : Handler) :
    addHandler (addHandler s h) h = addHandler s h := by
  show (if h ∈ addHandler s h then addHandler s h else addHandler s h ++ [h])
      = addHandler s h
  rw [if_pos (mem_addHandler_self s h)]

theorem listenersOn_idem (ls : Listeners) (e : String) (h : Handler) :
    listenersOn (listenersOn ls e h) e h = listenersOn ls e h := by
  induction ls with
  | nil => simp [listenersOn, addHandler]
  | cons p rest ih =>
    obtain ⟨pe, ps⟩ := p
    by_cases h1 : pe = e
    · subst h1; simp [listenersOn, addHandler_idem]
    · simp [listenersOn, h1, ih]

theorem nodup_of_lookupEvent (ls : Listeners) (e : String)
    (l : List Handler) (hwf : ListenersWF ls)
    (hlk : lookupEvent ls e = some l) : l.Nodup := by
  induction ls with
  | nil => simp [lookupEvent] at hlk
  | cons p rest ih =>
    obtain ⟨pe, ps⟩ := p
    by_cases h1 : pe = e
    · subst h1
      simp [lookupEvent] at hlk
      subst hlk
      exact hwf (pe, ps) (by simp)
    · simp [lookupEvent, h1] at hlk
      exact ih (fun q hq => hwf q (List.mem_cons_of_mem _ hq)) hlk

theorem listenersOn_WF (ls : Listeners) (e : String) (h : Handler)
    (hwf : ListenersWF ls) : ListenersWF (listenersOn ls e h) := by
  induction ls with
  | nil =>
    intro p hp
    simp [listenersOn] at hp
    subst hp
    exact List.nodup_singleton h
  | cons q rest ih =>
    obtain ⟨qe, qs⟩ := q
    by_cases h1 : qe = e
    · subst h1
      intro p hp
      simp [listenersOn] at hp
      rcases hp with hp | hp
      · subst hp
        exact addHandler_nodup qs h (hwf (qe, qs) (by simp))
      · exact hwf p (List.mem_cons_of_mem _ hp)
    · intro p hp
      simp [listenersOn, h1] at hp
      rcases hp with hp | hp
      · subst hp; exact hwf (qe, qs) (by simp)
      · exact ih (fun r hr => hwf r (List.mem_cons_of_mem _ hr)) p hp

theorem runHandlers_thr_irrel {α : Type}
    (sem : Handler → α → Listeners → Listeners)
    (thr thr' : Handler → α → Bool) (e : String) (d : α)
    (pending : List Handler) (ls : Listeners) :
    (runHandlers sem thr e d pending ls).1
        = (runHandlers sem thr' e d pending ls).1 ∧
    (runHandlers sem thr e d pending ls).2.1
        = (runHandlers sem thr' e d pending ls).2.1 := by
  induction pending generalizing ls with
  | nil => exact ⟨rfl, rfl⟩
  | cons h rest ih =>
    cases hlk : lookupEvent ls e with
    | none => simpa [runHandlers, hlk] using ih ls
    | some cur =>
      by_cases hm : h ∈ cur
      · have := ih (sem h d ls)
        simp only [runHandlers, hlk, hm, if_true]
        exact ⟨this.1, by simp [this.2]⟩
      · simpa [runHandlers, hlk, hm] using ih ls

theorem runHandlers_invoked_eq {α : Type}
    (sem : Handler → α → Listeners → Listeners)
    (thr : Handler → α → Bool) (e : String) (d : α)
    (pending : List Handler) (ls : Listeners) (cur : List Handler)
    (hlk : lookupEvent ls e = some cur)
    (hsub : ∀ h ∈ pending, h ∈ cur)
    (hnd : pending.Nodup)
    (hbeh : ∀ h ∈ pending,
      (∀ ls2, lookupEvent (sem h d ls2) e = lookupEvent ls2 e) ∨
      (∀ ls2, sem h d ls2 = listenersOff ls2 e h)) :
    (runHandlers sem thr e d pending ls).2.1 = pending := by
  induction pending generalizing ls cur with
  | nil => rfl
  | cons h rest ih =>
    have hm : h ∈ cur := hsub h (by simp)
    simp only [runHandlers, hlk, hm, if_true]
    have hndtail := (List.nodup_cons.mp hnd).2
    have hnotmem := (List.nodup_cons.mp hnd).1
    rcases hbeh h (by simp) with hframe | hoff
    · have hlk' : lookupEvent (sem h d ls) e = some cur := by
        rw [hframe ls, hlk]
      have := ih (sem h d ls) cur hlk'
        (fun x hx => hsub x (List.mem_cons_of_mem _ hx)) hndtail
        (fun x hx => hbeh x (List.mem_cons_of_mem _ hx))
      simp [this]
    · have hlk' : lookupEvent (sem h d ls) e = some (cur.erase h) := by
        rw [hoff ls, lookupEvent_listenersOff, if_pos rfl, hlk]
        rfl
      have hsub' : ∀ x ∈ rest, x ∈ cur.erase h := by
        intro x hx
        have hxh : x ≠ h := by
          intro hc
          subst hc
          exact hnotmem hx
        exact (List.mem_erase_of_ne hxh).mpr
          (hsub x (List.mem_cons_of_mem _ hx))
      have := ih (sem h d ls) (cur.erase h) hlk' hsub' hndtail
        (fun x hx => hbeh x (List.mem_cons_of_mem _ hx))
      simp [this]

theorem listenersEmit_invoked_eq {α : Type}
    (sem : Handler → α → Listeners → Listeners)
    (thr : Handler → α → Bool) (ls : Listeners) (e : String) (d : α)
    (hs : List Handler)
    (hwf : ListenersWF ls)
    (hlk : lookupEvent ls e = some hs)
    (hbeh : ∀ h ∈ hs,
      (∀ ls2, lookupEvent (sem h d ls2) e = lookupEvent ls2 e) ∨
      (∀ ls2, sem h d ls2 = listenersOff ls2 e h)) :
    (listenersEmit sem thr ls e d).2.1 = hs := by
  simp only [listenersEmit, hlk]
  exact runHandlers_invoked_eq sem thr e d hs ls hs hlk
    (fun h hm => hm) (nodup_of_lookupEvent ls e hs hwf hlk) hbeh

end RegistryLemmas

/-- C2: dispatching an event invokes every handler currently registered
for it, whatever the throw behaviour of the handlers: the invocation
sequence equals the registered handler set, and both the final registry
and the invocation sequence are independent of which handlers throw —
`listenersEmit` moreover returns normally in all cases, so a subscriber
exception is caught at the dispatch boundary (recorded in the error
component) and never propagates to the dispatcher's caller.  The frame
hypothesis says the handlers do not edit this event's own registrations,
which is the general case; self-unsubscription is settled separately. -/
theorem emit_isolates_subscriber_failures {α : Type}
    (sem : Handler → α → Listeners → Listeners)
    (thr thr' : Handler → α → Bool) (ls : Listeners) (e : String) (d : α)
    (hs : List Handler)
    (hwf : ListenersWF ls)
    (hlk : lookupEvent ls e = some hs)
    (hframe : ∀ h ∈ hs, ∀ ls2,
      lookupEvent (sem h d ls2) e = lookupEvent ls2 e) :
    (listenersEmit sem thr ls e d).2.1 = hs ∧
    (listenersEmit sem thr ls e d).1 = (listenersEmit sem thr' ls e d).1 ∧
    (listenersEmit sem thr ls e d).2.1
        = (listenersEmit sem thr' ls e d).2.1 := by
  refine ⟨?_, ?_, ?_⟩
  · exact listenersEmit_invoked_eq sem thr ls e d hs hwf hlk
      (fun h hm => Or.inl (hframe h hm))
  · simp only [listenersEmit, hlk]
    exact (runHandlers_thr_irrel sem thr thr' e d hs ls).1
  · simp only [listenersEmit, hlk]
    exact (runHandlers_thr_irrel sem thr thr' e d hs ls).2

/-- Witness for C2: two subscribers to event "evt" where the first one
throws; dispatching still invokes both, in order. -/
theorem emit_isolates_subscriber_failures_witness :
    (listenersEmit (fun _ (_ : Nat) ls => ls) (fun h _ => h == 0)
        [("evt", [0, 1])] "evt" 0).2.1 = [0, 1] :=
  (emit_isolates_subscriber_failures (fun _ _ ls => ls) (fun h _ => h == 0)
    (fun _ _ => false) [("evt", [0, 1])] "evt" 0 [0, 1]
    (by intro p hp; simp only [List.mem_singleton] at hp; subst hp; decide)
    (by decide) (fun _ _ _ => rfl)).1

/-- C8: if every handler registered for the event either leaves the
event's registrations alone or unsubscribes exactly itself, a dispatch
still invokes every handler registered at its start exactly once — none
is skipped and none is invoked twice. -/
theorem emit_tolerates_self_unsubscribe {α : Type}
    (sem : Handler → α → Listeners → Listeners)
    (thr : Handler → α → Bool) (ls : Listeners) (e : String) (d : α)
    (hs : List Handler)
    (hwf : ListenersWF ls)
    (hlk : lookupEvent ls e = some hs)
    (hbeh : ∀ h ∈ hs,
      (∀ ls2, lookupEvent (sem h d ls2) e = lookupEvent ls2 e) ∨
      (∀ ls2, sem h d ls2 = listenersOff ls2 e h)) :
    (listenersEmit sem thr ls e d).2.1 = hs ∧
    ∀ h ∈ hs, ((listenersEmit sem thr ls e d).2.1).count h = 1 := by
  have hinv := listenersEmit_invoked_eq sem thr ls e d hs hwf hlk hbeh
  refine ⟨hinv, ?_⟩
  intro h hm
  rw [hinv]
  exact List.count_eq_one_of_mem (nodup_of_lookupEvent ls e hs hwf hlk) hm

/-- Witness for C8: both subscribers to "evt" unsubscribe themselves
during dispatch; both are still invoked, each exactly once. -/
theorem emit_tolerates_self_unsubscribe_witness :
    (listenersEmit (fun h (_ : Nat) ls2 => listenersOff ls2 "evt" h)
        (fun _ _ => false) [("evt", [0, 1])] "evt" 0).2.1 = [0, 1] :=
  (emit_tolerates_self_unsubscribe (fun h _ ls2 => listenersOff ls2 "evt" h)
    (fun _ _ => false) [("evt", [0, 1])] "evt" 0 [0, 1]
    (by intro p hp; simp only [List.mem_singleton] at hp; subst hp; decide)
    (by decide) (fun h _ => Or.inr (fun _ => rfl))).1

/-- C9: subscribing the same handler twice to the same event leaves the
registry exactly as subscribing it once, and a subsequent dispatch (whose
handlers do not themselves edit this event's registrations) invokes that
handler exactly once, because an event's handlers are held in a set. -/
theorem subscribe_idempotent {α : Type}
    (sem : Handler → α → Listeners → Listeners)
    (thr : Handler → α → Bool) (s : SocketService) (e : String)
    (h : Handler) (d : α)
    (hwf : ListenersWF s.listeners)
    (hframe : ∀ g (ls2 : Listeners),
      lookupEvent (sem g d ls2) e = lookupEvent ls2 e) :
    SocketService.on e h (SocketService.on e h s) = SocketService.on e h s ∧
    ((listenersEmit sem thr (SocketService.on e h s).listeners e d).2.1).count
        h = 1 := by
  constructor
  · simp [SocketService.on, listenersOn_idem]
  · have hlk : lookupEvent (listenersOn s.listeners e h) e
        = some (addHandler ((lookupEvent s.listeners e).getD []) h) := by
      rw [lookupEvent_listenersOn, if_pos rfl]
    have hnd : (addHandler ((lookupEvent s.listeners e).getD []) h).Nodup := by
      apply addHandler_nodup
      cases hl : lookupEvent s.listeners e with
      | none => simp
      | some l => simpa using nodup_of_lookupEvent s.listeners e l hwf hl
    have hinv := listenersEmit_invoked_eq sem thr
      (listenersOn s.listeners e h) e d _
      (listenersOn_WF s.listeners e h hwf) hlk (fun g _ => Or.inl (hframe g))
    show ((listenersEmit sem thr (listenersOn s.listeners e h) e d).2.1).count
        h = 1
    rw [hinv]
    exact List.count_eq_one_of_mem hnd (mem_addHandler_self _ _)

/-- Witness for C9 at a fresh service: subscribing handler 0 to "evt"
twice equals subscribing once. -/
theorem subscribe_idempotent_witness :
    SocketService.on "evt" 0 (SocketService.on "evt" 0 SocketService.init)
      = SocketService.on "evt" 0 SocketService.init :=
  (subscribe_idempotent (fun _ (_ : Nat) ls => ls) (fun _ _ => false)
    SocketService.init "evt" 0 0
    (by intro p hp; simp [SocketService.init] at hp) (fun _ _ => rfl)).1

/-- C10: every fire-and-forget sender invoked while the socket is absent
or not connected returns without emitting anything and without modifying
any field of the service state; the embedded senders are total functions,
so no exception escapes either — for `sendMessage` in particular the
guard short-circuits before the content argument is ever touched. -/
theorem senders_noop_when_not_connected (s : SocketService) (c : Nat)
    (m : String)
    (h : ¬(s.socket.isSome = true ∧ s.isConnected = true)) :
    sendMessage c m s = s ∧ joinChat c s = s ∧ leaveChat c s = s ∧
    startTyping c s = s ∧ stopTyping c s = s ∧
    markMessagesAsRead c s = s := by
  have hg : (s.socket.isSome && s.isConnected) = false := by
    cases hs : s.socket.isSome <;> cases hc : s.isConnected <;> simp_all
  refine ⟨?_, ?_, ?_, ?_, ?_, ?_⟩ <;>
    simp [sendMessage, joinChat, leaveChat, startTyping, stopTyping,
      markMessagesAsRead, hg]

/-- Witness for C10 at a fresh, disconnected service. -/
theorem senders_noop_when_not_connected_witness :
    sendMessage 1 "hi" SocketService.init = SocketService.init :=
  (senders_noop_when_not_connected SocketService.init 1 "hi" (by decide)).1

/-- C7: receipt of `auth_error` on a live connect attempt rejects the
attempt with the server-supplied reason, closes the transport (the socket
reference is nulled and its transport identifier leaves the open set) and
clears all registrations, and a subsequent `sendMessage` is rejected
locally: it changes nothing and emits nothing, because the session is no
longer connected. -/
theorem auth_error_closes_and_rejects (s : SocketService) (t : Nat)
    (msg : String) (c : Nat) (m : String)
    (h : s.socket = some t) :
    (socketOnAuthError msg s).2 = some (ConnectOutcome.rejected msg) ∧
    (socketOnAuthError msg s).1.socket = none ∧
    (socketOnAuthError msg s).1.isConnected = false ∧
    (socketOnAuthError msg s).1.listeners = [] ∧
    (socketOnAuthError msg s).1.openTransports
        = s.openTransports.erase t ∧
    sendMessage c m (socketOnAuthError msg s).1
        = (socketOnAuthError msg s).1 := by
  simp [socketOnAuthError, h, disconnect, sendMessage]

/-- Witness for C7 on the connected service. -/
theorem auth_error_closes_and_rejects_witness :
    (socketOnAuthError "bad token" svcConnected).2
      = some (ConnectOutcome.rejected "bad token") :=
  (auth_error_closes_and_rejects svcConnected 0 "bad token" 1 "hi"
    (by decide)).1

/-- C5 counterexample: with a handler registered while no socket exists —
a reachable state, since the components subscribe on mount regardless of
connection — `disconnect()` returns leaving the registry untouched, so
"after `disconnect()` returns, the registry holds no registrations" is
false: the "new_message" registration survives the call, and after a
fresh `connect` a server push invokes the surviving handler even though
it was never re-subscribed after the disconnect. -/
theorem disconnect_keeps_offline_registrations :
    disconnect svcSubscribedOffline = svcSubscribedOffline ∧
    lookupEvent (disconnect svcSubscribedOffline).listeners "new_message"
      = some [0] ∧
    (deliverPush (fun _ (_ : Nat) ls => ls) (fun _ _ => false)
        "new_message" 0
        (connect "tok2" (disconnect svcSubscribedOffline))).2 = [0] := by
  refine ⟨rfl, by decide, by decide⟩

/-- C5 amended: when a transport is present, `disconnect()` closes it and
clears every registration, after which no server push invokes any handler
(the registry is empty and no socket remains to deliver a push); when no
transport is present, `disconnect()` is a safe no-op that leaves the
state — including any registrations made while disconnected —
unchanged. -/
theorem disconnect_clears_when_socket_present {α : Type}
    (sem : Handler → α → Listeners → Listeners)
    (thr : Handler → α → Bool) (s : SocketService) :
    (s.socket.isSome = true →
      (disconnect s).listeners = [] ∧ (disconnect s).socket = none ∧
      ∀ (e : String) (d : α),
        (deliverPush sem thr e d (disconnect s)).2 = [] ∧
        (deliverPush sem thr e d (disconnect s)).1 = disconnect s) ∧
    (s.socket = none → disconnect s = s) := by
  constructor
  · intro hs
    cases h : s.socket with
    | none => rw [h] at hs; simp at hs
    | some t => refine ⟨?_, ?_, ?_⟩ <;> simp [disconnect, h, deliverPush]
  · intro hn
    simp [disconnect, hn]

/-- Witness for C5 amended: disconnecting the connected service empties
the registry; disconnecting a fresh service is a no-op. -/
theorem disconnect_clears_when_socket_present_witness :
    (disconnect svcConnected).listeners = [] ∧
    disconnect SocketService.init = SocketService.init :=
  ⟨((disconnect_clears_when_socket_present (fun _ (_ : Nat) ls => ls)
      (fun _ _ => false) svcConnected).1 (by decide)).1,
   (disconnect_clears_when_socket_present (fun _ (_ : Nat) ls => ls)
      (fun _ _ => false) SocketService.init).2 rfl⟩

/-- C3 counterexample: in the reachable state where the transport's
`connect` event has fired but no `authenticated` event has been delivered,
the session is not authenticated and yet `joinChat` is not a no-op: it
sends a `join_chat` command over the transport, because the source guards
on `socket && isConnected`, not on authentication. -/
theorem joinChat_sends_when_unauthenticated :
    svcConnected.authenticated = false ∧
    joinChat 5 svcConnected ≠ svcConnected ∧
    (joinChat 5 svcConnected).wire
      = svcConnected.wire ++ [WireCmd.join_chat 5] := by
  refine ⟨rfl, by decide, rfl⟩

/-- C3 amended: `joinChat(roomId)` is a no-op (sending nothing) exactly
when the socket is absent or the transport not connected — the guard is
connection, not authentication; otherwise it sends a `join_chat` command
over the transport and keeps no local membership state at all, so calling
it twice leaves the local state exactly as calling it once (each connected
call merely emits another identical command, which the protocol expects
the server to tolerate). -/
theorem joinChat_guarded_by_connection (c : Nat) (s : SocketService) :
    (¬(s.socket.isSome = true ∧ s.isConnected = true) → joinChat c s = s) ∧
    (s.socket.isSome = true → s.isConnected = true →
      (joinChat c s).wire = s.wire ++ [WireCmd.join_chat c] ∧
      (joinChat c s).localState = s.localState) ∧
    (joinChat c (joinChat c s)).localState = s.localState := by
  have hloc : ∀ s' : SocketService,
      (joinChat c s').localState = s'.localState := by
    intro s'
    unfold joinChat
    split <;> rfl
  refine ⟨?_, ?_, ?_⟩
  · intro h
    have hg : (s.socket.isSome && s.isConnected) = false := by
      cases hs : s.socket.isSome <;> cases hc : s.isConnected <;> simp_all
    simp [joinChat, hg]
  · intro h1 h2
    refine ⟨?_, hloc s⟩
    simp [joinChat, h1, h2]
  · rw [hloc, hloc]

/-- Witness for C3 amended: on a fresh service the join is dropped; on the
connected service it emits exactly one `join_chat` command. -/
theorem joinChat_guarded_by_connection_witness :
    joinChat 5 SocketService.init = SocketService.init ∧
    (joinChat 5 svcConnected).wire
      = svcConnected.wire ++ [WireCmd.join_chat 5] :=
  ⟨(joinChat_guarded_by_connection 5 SocketService.init).1 (by decide),
   ((joinChat_guarded_by_connection 5 svcConnected).2.1 rfl rfl).1⟩

/-- Helper: a sequence of `on` registrations never touches the transport
fields of the service. -/
theorem applyOns_preserves_transport (regs : List (String × Handler)) :
    ∀ s : SocketService,
      (applyOns regs s).socket = s.socket ∧
      (applyOns regs s).openTransports = s.openTransports ∧
      (applyOns regs s).nextId = s.nextId := by
  induction regs with
  | nil => intro s; exact ⟨rfl, rfl, rfl⟩
  | cons p rest ih =>
    intro s
    simpa [applyOns] using ih (SocketService.on p.1 p.2 s)

/-- Helper: the synchronous part of one `connect` call, from any state
satisfying the single-transport invariant: the old transport (if any) is
closed, a fresh one is opened and becomes the only live transport, and
the registry survives only if there was no old socket to tear down. -/
theorem connect_state (tok : String) (s : SocketService)
    (hinv : s.openTransports = s.socket.toList) :
    (connect tok s).socket = some s.nextId ∧
    (connect tok s).openTransports = [s.nextId] ∧
    (connect tok s).nextId = s.nextId + 1 ∧
    (connect tok s).listeners
        = (if s.socket.isSome then [] else s.listeners) := by
  cases hs : s.socket with
  | none =>
    rw [hs] at hinv
    simp [connect, hs, hinv]
  | some t =>
    rw [hs] at hinv
    simp [connect, disconnect, hs, hinv]

/-- C4: from any state satisfying the at-most-one-live-transport
invariant, two successive `connect` calls — with an arbitrary sequence of
listener registrations in between — leave exactly one live transport: the
second call first tears down the first attempt's transport (its
identifier leaves the open set) and clears the registry, so no listeners
from the first attempt survive. -/
theorem connect_twice_one_live_transport (s : SocketService)
    (tok tok' : String) (regs : List (String × Handler))
    (hinv : s.openTransports = s.socket.toList) :
    (connect tok' (applyOns regs (connect tok s))).socket
        = some (s.nextId + 1) ∧
    (connect tok' (applyOns regs (connect tok s))).openTransports
        = [s.nextId + 1] ∧
    (connect tok' (applyOns regs (connect tok s))).listeners = [] := by
  obtain ⟨h1s, h1o, h1n, _⟩ := connect_state tok s hinv
  obtain ⟨hps, hpo, hpn⟩ := applyOns_preserves_transport regs (connect tok s)
  have hinv2 : (applyOns regs (connect tok s)).openTransports
      = (applyOns regs (connect tok s)).socket.toList := by
    rw [hpo, hps, h1o, h1s]
    rfl
  obtain ⟨h2s, h2o, h2n, h2l⟩ := connect_state tok' _ hinv2
  refine ⟨?_, ?_, ?_⟩
  · rw [h2s, hpn, h1n]
  · rw [h2o, hpn, h1n]
  · rw [h2l, hps, h1s]
    rfl

/-- Witness for C4: two connects on a fresh service with a registration
made between them leave exactly the second transport open. -/
theorem connect_twice_one_live_transport_witness :
    (connect "b" (applyOns [("new_message", 0)]
        (connect "a" SocketService.init))).openTransports = [1] :=
  (connect_twice_one_live_transport SocketService.init "a" "b"
    [("new_message", 0)] rfl).2.1

/-- C6: a send whose content is empty or whitespace-only after trimming
is rejected locally by `handleSendMessage`: the whole window state —
message list and service, hence also the wire log — is unchanged, so no
`pending` record is created and nothing is emitted over the transport. -/
theorem empty_content_rejected_locally (cw : ChatWindowState)
    (content : String) (now : Nat)
    (h : jsTrim content = "") :
    handleSendMessage content now cw = cw := by
  simp [handleSendMessage, h]

/-- Witness for C6: sending whitespace-only content leaves the window
state untouched. -/
theorem empty_content_rejected_locally_witness :
    handleSendMessage "   " 0 cwStart = cwStart :=
  empty_content_rejected_locally cwStart "   " 0 (by decide)

/-- C1 counterexample: sending "hello" while connected and then receiving
the correlated `new_message` echo leaves two records in the list: the
optimistic record is still present with no server id — and with status
"failed", because the window's call `socketService.sendMessage(payload)`
passes the payload object where `(chatId, content)` is expected, so the
service's `content.trim()` throws and the window's catch block marks the
record failed — while the server record is appended as a separate entry.
The optimistic record is duplicated, never reconciled into a confirmed
record carrying the server id. -/
theorem new_message_duplicates_optimistic_record :
    cwAfterEcho.messages =
      [{ id := none, chat_id := 1, sender_id := 10,
         sender_username := "alice", content := "hello", timestamp := 100,
         status := some "failed" },
       serverEcho] := by decide

/-- C1 amended: for every send of non-empty content while the session is
connected, an optimistic record for that content is appended to the local
message list immediately and synchronously marked "failed" (the
service-level call throws on its undefined content argument before
anything reaches the wire), with the service state untouched; upon later
receipt of a `new_message` event for the same room, the incoming server
record is appended as an additional, separate entry — the optimistic
record is never reconciled with the server-assigned id. -/
theorem optimistic_record_never_reconciled (cw : ChatWindowState)
    (content : String) (now : Nat)
    (hne : ¬ jsTrim content = "")
    (hsock : cw.svc.socket.isSome = true)
    (hconn : cw.svc.isConnected = true)
    (hfresh : mkOutgoing cw content now ∉ cw.messages) :
    (handleSendMessage content now cw).messages
      = cw.messages
        ++ [{ mkOutgoing cw content now with status := some "failed" }] ∧
    (handleSendMessage content now cw).svc = cw.svc ∧
    ∀ m : ChatMessage, m.chat_id = cw.chatId →
      (handleNewMessageUpdate m (handleSendMessage content now cw)).messages
        = cw.messages
          ++ [{ mkOutgoing cw content now with status := some "failed" },
              m] := by
  have hg : (cw.svc.socket.isSome && cw.svc.isConnected) = true := by
    rw [hsock, hconn]
    rfl
  have hmap : cw.messages.map
      (fun m => if m = mkOutgoing cw content now
                then { m with status := some "failed" } else m)
      = cw.messages := by
    conv_rhs => rw [← List.map_id cw.messages]
    apply List.map_congr_left
    intro m hm
    have hne2 : ¬ m = mkOutgoing cw content now := by
      intro hc
      subst hc
      exact hfresh hm
    simp [hne2]
  have hmsgs : (handleSendMessage content now cw).messages
      = cw.messages
        ++ [{ mkOutgoing cw content now with status := some "failed" }] := by
    unfold handleSendMessage
    rw [if_neg hne, if_pos hg]
    show (cw.messages ++ [mkOutgoing cw content now]).map
        (fun m => if m = mkOutgoing cw content now
                  then { m with status := some "failed" } else m)
      = cw.messages
        ++ [{ mkOutgoing cw content now with status := some "failed" }]
    rw [List.map_append, hmap]
    simp
  have hchat : (handleSendMessage content now cw).chatId = cw.chatId := by
    unfold handleSendMessage
    rw [if_neg hne, if_pos hg]
  have hsvc : (handleSendMessage content now cw).svc = cw.svc := by
    unfold handleSendMessage
    rw [if_neg hne, if_pos hg]
  refine ⟨hmsgs, hsvc, ?_⟩
  intro m hm
  have hupd : (handleNewMessageUpdate m
      (handleSendMessage content now cw)).messages
      = (handleSendMessage content now cw).messages ++ [m] := by
    unfold handleNewMessageUpdate
    rw [if_pos (by rw [hchat]; exact hm)]
  rw [hupd, hmsgs, List.append_assoc]
  rfl

/-- Witness for C1 amended at the concrete "hello" scenario. -/
theorem optimistic_record_never_reconciled_witness :
    (handleSendMessage "hello" 100 cwStart).svc = cwStart.svc :=
  (optimistic_record_never_reconciled cwStart "hello" 100 (by decide)
    rfl rfl (by simp [cwStart])).2.1

end ChatApp
